import Mathlib

set_option maxHeartbeats 1000000

/-! Shallow embedding of the Jira AI agent backend (src/app.py, src/schema.py,
src/utils.py): JSON-like Python values, the Python coercions the code relies
on, the story and test-case normalizers, the baseline generators and the
generation orchestration, together with proofs about them. -/

/-- JSON-like Python values as they appear in parsed LLM responses. A
non-integral number is represented by its decimal form (whole part and
fractional digit string), since the code only observes numbers through
`str` and `int`. -/
inductive Json where
  | null
  | bool (b : Bool)
  | int (n : Int)
  | float (w : Int) (frac : String)
  | str (s : String)
  | arr (xs : List Json)
  | obj (fields : List (String × Json))
deriving Repr

/-- Python truthiness of a JSON-like value. -/
def truthy : Json → Bool
  | .null => false
  | .bool b => b
  | .int n => n != 0
  | .float w frac => !(w == 0 && frac.all (fun c => c == '0'))
  | .str s => s != ""
  | .arr xs => !xs.isEmpty
  | .obj fs => !fs.isEmpty

mutual

/-- Python `repr` of a JSON-like value (string escaping elided; the code never
branches on the text of a container repr). -/
def pyRepr : Json → String
  | .null => "None"
  | .bool true => "True"
  | .bool false => "False"
  | .int n => toString n
  | .float w frac => toString w ++ "." ++ frac
  | .str s => "\x27" ++ s ++ "\x27"
  | .arr xs => "[" ++ pyReprList xs ++ "]"
  | .obj fs => "\x7b" ++ pyReprFields fs ++ "\x7d"

/-- Comma-separated reprs of the elements of a Python list. -/
def pyReprList : List Json → String
  | [] => ""
  | [x] => pyRepr x
  | x :: y :: xs => pyRepr x ++ ", " ++ pyReprList (y :: xs)

/-- Comma-separated reprs of the entries of a Python dict. -/
def pyReprFields : List (String × Json) → String
  | [] => ""
  | [(k, v)] => "\x27" ++ k ++ "\x27: " ++ pyRepr v
  | (k, v) :: p :: fs => "\x27" ++ k ++ "\x27: " ++ pyRepr v ++ ", " ++ pyReprFields (p :: fs)

end

/-- Python `str` of a JSON-like value. -/
def pyStr : Json → String
  | .str s => s
  | j => pyRepr j

/-- Python `str.strip()` on a character list: drop whitespace from both ends. -/
def stripChars (l : List Char) : List Char :=
  ((l.dropWhile Char.isWhitespace).reverse.dropWhile Char.isWhitespace).reverse

/-- Python `str.strip()`. -/
def pyStripStr (s : String) : String := String.mk (stripChars s.data)

/-- Python `str.lower()` (character-list based, ASCII case folding). -/
def lowerStr (s : String) : String := String.mk (s.data.map Char.toLower)

/-- Value of a nonempty all-decimal-digit character list, `none` otherwise. -/
def decDigits (l : List Char) : Option Nat :=
  if l.isEmpty then none
  else l.foldl (fun acc c =>
    acc.bind (fun n => if c.isDigit then some (10 * n + (c.toNat - 48)) else none)) (some 0)

/-- Python `int(s)` on an already-stripped string: an optional sign followed by
decimal digits (Python also accepts underscore grouping, not modelled here). -/
def parseIntPy (s : String) : Option Int :=
  match s.data with
  | '-' :: rest => (decDigits rest).map (fun n => -(n : Int))
  | '+' :: rest => (decDigits rest).map (fun n => (n : Int))
  | l => (decDigits l).map (fun n => (n : Int))

/-- Python `int(str(value).strip())` as one operation: exact for ints (whose
`str` always parses back); a string is stripped and parsed; every other value
(None, booleans, non-integral floats, lists, dicts) has a `str` form that is
never a valid integer literal, so the parse raises. -/
def pyIntOf : Json → Option Int
  | .int n => some n
  | .str s => parseIntPy (pyStripStr s)
  | _ => none

/-- src/app.py `_FIB_ALLOWED`: the allowed story-point values. -/
def _FIB_ALLOWED : List Int := [1, 2, 3, 5, 8, 13]

/-- Lexicographic order on the keys `(abs(v - n), v)` used by the Python
`min(..., key=...)` call in `_to_fib`. -/
def keyLt (a b : Nat × Int) : Bool := a.1 < b.1 || (a.1 == b.1 && a.2 < b.2)

/-- Python `min(_FIB_ALLOWED, key=lambda v: (abs(v - n), v))`: fold keeping the
current minimum, replacing it only on a strictly smaller key. -/
def minFib (n : Int) : Int :=
  List.foldl
    (fun best v => if keyLt ((v - n).natAbs, v) ((best - n).natAbs, best) then v else best)
    1 [2, 3, 5, 8, 13]

/-- src/app.py `_to_fib`: coerce any value into the nearest allowed Fibonacci
point (ties toward the lower value); parse failures default to 3. -/
def to_fib (j : Json) : Int :=
  match pyIntOf j with
  | none => 3
  | some n => minFib n

theorem minFib_mem (n : Int) : minFib n ∈ _FIB_ALLOWED := by
  unfold minFib _FIB_ALLOWED
  simp only [List.foldl]
  split_ifs <;> simp

theorem to_fib_mem (j : Json) : to_fib j ∈ _FIB_ALLOWED := by
  unfold to_fib
  cases pyIntOf j
  · simp [_FIB_ALLOWED]
  · exact minFib_mem _

theorem minFib_fix (n : Int) (h : n ∈ _FIB_ALLOWED) : minFib n = n := by
  simp only [_FIB_ALLOWED, List.mem_cons, List.not_mem_nil, or_false] at h
  rcases h with h | h | h | h | h | h <;> subst h <;> decide

/-- src/schema.py `GivenWhenThen` (`when`/`then` are Lean keywords, hence the
underscores). -/
structure GivenWhenThen where
  given : String
  when_ : String
  then_ : String
deriving Repr, DecidableEq

/-- src/schema.py `StoryDescription`. -/
structure StoryDescription where
  asA : String
  iWant : String
  soThat : String
deriving Repr, DecidableEq

/-- src/schema.py `Story`. Pydantic's `Literal[1,2,3,5,8,13]` constraint on
`storyPoints` is checked at construction time; it is modelled separately by
`storyPointsOk` below. -/
structure Story where
  id : Option String
  featureId : Option String
  title : String
  description : StoryDescription
  acceptanceCriteria : List GivenWhenThen
  storyPoints : Int
deriving Repr, DecidableEq

/-- The `Literal[1,2,3,5,8,13]` validation constraint of src/schema.py
`Story.storyPoints` — the only schema constraint beyond the field types. -/
def storyPointsOk (s : Story) : Bool := _FIB_ALLOWED.contains s.storyPoints

/-- src/schema.py `TestCase`. -/
structure TestCase where
  id : String
  storyId : String
  preconditions : String
  steps : List String
  expected : String
deriving Repr, DecidableEq

/-- src/schema.py `Feature` (`description: Optional[str] = ""`). -/
structure Feature where
  id : String
  key : Option String
  title : String
  description : Option String
deriving Repr, DecidableEq

/-- `needle` is a prefix of `hay` (character lists). -/
def hasPre : List Char → List Char → Bool
  | [], _ => true
  | _ :: _, [] => false
  | a :: p, b :: l => a == b && hasPre p l

/-- Python `needle in hay` substring test on character lists. -/
def hasSub (needle : List Char) : List Char → Bool
  | [] => needle.isEmpty
  | b :: l => hasPre needle (b :: l) || hasSub needle l

/-- Python `k in t` for strings. -/
def strIn (needle hay : String) : Bool := hasSub needle.data hay.data

/-- src/utils.py `estimate_points`: keyword heuristic on the lowercased title. -/
def estimate_points (title : String) : Int :=
  let t := lowerStr title
  if ["auth", "login", "signup", "register", "payment", "checkout", "pdf", "export",
      "email"].any (fun k => strIn k t) then 5
  else if ["error", "retry", "timeout", "edge", "validation"].any (fun k => strIn k t) then 3
  else 2

/-- src/utils.py `FIB`. -/
def FIB : List Int := [1, 2, 3, 5, 8, 13]

/-- src/utils.py `fib_down`: largest allowed Fibonacci value `<= n`, with 1 as
the floor. -/
def fib_down (n : Int) : Int :=
  match FIB.reverse.find? (fun v => decide (v ≤ n)) with
  | some v => v
  | none => 1

/-- src/utils.py `fib_next_lower`: the next lower Fibonacci value in the
sequence (floored at the smallest). -/
def fib_next_lower (n : Int) : Int :=
  let i := FIB.indexOf (fib_down n)
  FIB.getD (i - 1) 1

/-- Python truthiness of an optional string (`None` and `""` are falsy). -/
def optStrTruthy : Option String → Bool
  | none => false
  | some s => s != ""

/-- Python `a or b` where `a` is an optional string and `b` a string. -/
def orStr (a : Option String) (b : String) : String :=
  match a with
  | some s => if s = "" then b else s
  | none => b

/-- Zero-padded `f"{n:03d}"`. -/
def pad3 (n : Nat) : String :=
  if n < 10 then "00" ++ toString n
  else if n < 100 then "0" ++ toString n
  else toString n

/-- src/utils.py `features_to_baseline_stories`: the fallback story generator.
One happy-path story per feature, plus an error-handling story when the
feature's description is non-empty; ids `S-{n:03d}` sequential across the
whole output. -/
def features_to_baseline_stories (features : List Feature) : List Story :=
  let step := fun (acc : List Story × Nat) (f : Feature) =>
    let (stories, sid) := acc
    let base_title := if f.title ≠ "" then pyStripStr f.title else "Feature"
    let featureId := orStr (some f.id) (orStr f.key base_title)
    let points1 := fib_down (estimate_points base_title)
    let s1 : Story :=
      { id := some ("S-" ++ pad3 sid)
        featureId := some featureId
        title := base_title ++ ": happy path"
        description :=
          { asA := "end user"
            iWant := "to use " ++ lowerStr base_title ++ " successfully"
            soThat := "I can achieve my goal" }
        acceptanceCriteria :=
          [ { given := "valid inputs", when_ := "I perform the main action",
              then_ := "the system completes it successfully" },
            { given := "system is available", when_ := "I retry once",
              then_ := "the system responds within 2 seconds" } ]
        storyPoints := points1 }
    let stories := stories ++ [s1]
    let sid := sid + 1
    if pyStripStr ((f.description).getD "") ≠ "" then
      let points2 := fib_next_lower points1
      let s2 : Story :=
        { id := some ("S-" ++ pad3 sid)
          featureId := some featureId
          title := base_title ++ ": error handling"
          description :=
            { asA := "end user"
              iWant := "to see clear errors while using " ++ lowerStr base_title
              soThat := "I can recover and proceed" }
          acceptanceCriteria :=
            [ { given := "invalid inputs", when_ := "I submit the form",
                then_ := "I see helpful validation messages" },
              { given := "a server error occurs", when_ := "I try again",
                then_ := "I see a non-destructive error and can retry" } ]
          storyPoints := points2 }
      (stories ++ [s2], sid + 1)
    else
      (stories, sid)
  (features.foldl step ([], 1)).1

/-- src/utils.py `stories_to_baseline_tests`: the fallback test generator, one
test case per story. -/
def stories_to_baseline_tests (stories : List Story) : List TestCase :=
  let step := fun (acc : List TestCase × Nat) (s : Story) =>
    let (tests, tid) := acc
    let steps :=
      [ "Navigate to the area for \x27" ++ s.title ++ "\x27",
        "Provide valid inputs (or reproduce described scenario)",
        "Trigger the main action",
        "Observe system response" ]
    let st := lowerStr s.title
    let expected :=
      if ["error", "validation", "retry", "fail"].any (fun k => strIn k st) then
        "Clear error shown with guidance; user can retry or recover"
      else
        "System completes the action successfully without errors"
    let tcase : TestCase :=
      { id := "T-" ++ pad3 tid
        storyId := (s.id).getD ""
        preconditions := "User has access and system is available"
        steps := steps
        expected := expected }
    (tests ++ [tcase], tid + 1)
  (stories.foldl step ([], 1)).1

/-- C2: for every integer and every string representing an integer, `_to_fib`
returns a value in {1,2,3,5,8,13}; a value already in the set is returned
unchanged; the tie at 4 resolves to the lower value 3; and every malformed
input (non-numeric string, null) yields 3. -/
theorem c2_story_points_coercion :
    (∀ n : Int, to_fib (Json.int n) ∈ _FIB_ALLOWED)
    ∧ (∀ (s : String) (n : Int), parseIntPy (pyStripStr s) = some n →
        to_fib (Json.str s) ∈ _FIB_ALLOWED)
    ∧ (∀ n : Int, n ∈ _FIB_ALLOWED → to_fib (Json.int n) = n)
    ∧ to_fib (Json.int 4) = 3
    ∧ (∀ s : String, parseIntPy (pyStripStr s) = none → to_fib (Json.str s) = 3)
    ∧ to_fib Json.null = 3 := by
  refine ⟨fun n => to_fib_mem _, fun s n _ => to_fib_mem _, fun n h => ?_, by decide,
    fun s h => ?_, rfl⟩
  · show minFib n = n
    exact minFib_fix n h
  · show to_fib (Json.str s) = 3
    simp only [to_fib, pyIntOf, h]

theorem c2_story_points_coercion_witness :
    to_fib (Json.int 7) ∈ _FIB_ALLOWED
    ∧ to_fib (Json.str " 7 ") ∈ _FIB_ALLOWED
    ∧ to_fib (Json.int 8) = 8
    ∧ to_fib (Json.str "abc") = 3 :=
  ⟨c2_story_points_coercion.1 7,
   c2_story_points_coercion.2.1 " 7 " 7 (by decide),
   c2_story_points_coercion.2.2.1 8 (by decide),
   c2_story_points_coercion.2.2.2.2.1 "abc" (by decide)⟩

/-- C10: whenever `int(str(value).strip())` fails — in particular for the
non-integral number 4.7 and the numeric string "4.5" — `_to_fib` returns the
default 3, regardless of which allowed value is numerically nearest. -/
theorem c10_nonint_defaults_to_three :
    (∀ j : Json, pyIntOf j = none → to_fib j = 3)
    ∧ to_fib (Json.float 4 "7") = 3
    ∧ to_fib (Json.str "4.5") = 3 := by
  refine ⟨fun j h => ?_, rfl, by decide⟩
  unfold to_fib
  rw [h]

theorem c10_nonint_defaults_to_three_witness :
    pyIntOf (Json.str "x7") = none ∧ to_fib (Json.str "x7") = 3 :=
  ⟨by decide, c10_nonint_defaults_to_three.1 (Json.str "x7") (by decide)⟩

/-- The `Feature(title="Login")` input of the C8 scenario: empty id and
description, no key. -/
def loginFeature : Feature :=
  { id := "", key := none, title := "Login", description := some "" }

/-- C8 counterexample: for `Feature(title="Login")` the baseline generator's
single story has storyPoints 5 — the title contains the keyword "login", so
`estimate_points` returns 5 and `fib_down 5 = 5` — not 2 as the claim states. -/
theorem c8_cex_login_story_points :
    (features_to_baseline_stories [loginFeature]).map Story.storyPoints = [5]
    ∧ (5 : Int) ≠ 2 := by
  constructor
  · decide
  · decide

/-- C8 amended: for the single input `Feature(title="Login")` with empty
description the baseline generator yields exactly one story, titled
"Login: happy path", with 2 acceptance criteria and storyPoints = 5
(keyword "login" gives estimate 5, and the floor-Fibonacci of 5 is 5). -/
theorem c8_login_baseline_story :
    (features_to_baseline_stories [loginFeature]).length = 1
    ∧ (features_to_baseline_stories [loginFeature]).map Story.title = ["Login: happy path"]
    ∧ (features_to_baseline_stories [loginFeature]).map
        (fun s => s.acceptanceCriteria.length) = [2]
    ∧ (features_to_baseline_stories [loginFeature]).map Story.storyPoints = [5] := by
  refine ⟨by decide, by decide, by decide, by decide⟩

/-- Python dict lookup `d.get(k)`: `None` for a missing key (keys are unique
in dicts built from parsed JSON). -/
def jget (fs : List (String × Json)) (k : String) : Json :=
  match fs with
  | [] => .null
  | (k', v) :: t => if k' = k then v else jget t k

/-- Python `a or b` on JSON-like values: `a` if truthy, else `b`. -/
def orJ (a b : Json) : Json := if truthy a then a else b

/-- Python `dict(s or {})` at the top of the normalizers: a mapping is copied,
a falsy value gives the empty dict, and a truthy non-mapping raises. -/
def asDict : Json → Except String (List (String × Json))
  | .obj fs => .ok fs
  | j => if truthy j then .error "not a mapping" else .ok []

/-- `.strip()` on a Python value that must already be a string (an
AttributeError — modelled as an error — otherwise). -/
def stripJ : Json → Except String String
  | .str s => .ok (pyStripStr s)
  | _ => .error "strip on a non-string"

/-- `getattr(feature_fallback, "title", "")`. -/
def fbTitle : Option Feature → String
  | some f => f.title
  | none => ""

/-- `x is None` test. -/
def Json.isNull : Json → Bool
  | .null => true
  | _ => false

/-- The featureId computation of `_normalize_story`: the first truthy value
among the provided field and the fallback feature's id, key and title, else
"F"; then `str(...).strip() or "F"`. -/
def normFeatureId (fs : List (String × Json)) (fb : Option Feature) : String :=
  let idJ := match fb with | some f => Json.str f.id | none => Json.null
  let keyJ := match fb with
    | some f => (match f.key with | some k => Json.str k | none => Json.null)
    | none => Json.null
  let titleJ := match fb with | some f => Json.str f.title | none => Json.null
  let cand := orJ (jget fs "featureId") (orJ idJ (orJ keyJ (orJ titleJ (Json.str "F"))))
  let s := pyStripStr (pyStr cand)
  if s = "" then "F" else s

/-- The title computation of `_normalize_story`:
`(s.get("title") or "").strip()`, synthesizing `"Implement {feature title}"`
when empty; raises when the provided title is truthy but not a string. -/
def normTitle (fs : List (String × Json)) (fb : Option Feature) : Except String String :=
  match orJ (jget fs "title") (Json.str "") with
  | .str s =>
      let t := pyStripStr s
      if t = "" then
        let ft := if fbTitle fb = "" then "feature" else fbTitle fb
        .ok (pyStripStr ("Implement " ++ ft))
      else .ok t
  | _ => .error "title is not a string"

/-- The description computation of `_normalize_story`: a mapping is read
through the asA/role, iWant/goal, soThat/why key pairs with stripped string
values (raising on truthy non-strings); anything else yields the default
triple, with the fallback feature's title as the goal. -/
def normDesc (fs : List (String × Json)) (fb : Option Feature) :
    Except String StoryDescription :=
  match jget fs "description" with
  | .obj ds => do
      let asA ← stripJ (orJ (jget ds "asA") (orJ (jget ds "role") (Json.str "end-user")))
      let iWant ← stripJ (orJ (jget ds "iWant") (orJ (jget ds "goal")
        (orJ (Json.str (fbTitle fb)) (Json.str "use the feature"))))
      let soThat ← stripJ (orJ (jget ds "soThat") (orJ (jget ds "why")
        (Json.str "I get value quickly")))
      .ok { asA := asA, iWant := iWant, soThat := soThat }
  | _ =>
      .ok { asA := "end-user"
            iWant := if fbTitle fb = "" then "use the feature" else fbTitle fb
            soThat := "I get value quickly" }

/-- src/app.py `_normalize_gwt`: accept alternate key names per field,
stringify and strip each value, defaulting to the empty string; a non-mapping
item is treated as the empty dict. Total — `str()` never raises. -/
def normalize_gwt (item : Json) : GivenWhenThen :=
  let d := match item with | .obj fs => fs | _ => []
  let g := orJ (jget d "given") (orJ (jget d "Given")
    (orJ (jget d "precondition") (orJ (jget d "context") (Json.str ""))))
  let w := orJ (jget d "when") (orJ (jget d "When")
    (orJ (jget d "action") (orJ (jget d "event") (Json.str ""))))
  let t := orJ (jget d "then") (orJ (jget d "Then")
    (orJ (jget d "outcome") (orJ (jget d "result") (Json.str ""))))
  { given := pyStripStr (pyStr g)
    when_ := pyStripStr (pyStr w)
    then_ := pyStripStr (pyStr t) }

/-- The two default acceptance criteria `_normalize_story` synthesizes when
nothing remains after normalization, referencing the lowercased feature
title. -/
def defaultAC (fb : Option Feature) : List GivenWhenThen :=
  let ft := if fbTitle fb = "" then "the feature" else fbTitle fb
  [ normalize_gwt (.obj [("given", .str "valid input"),
      ("when", .str ("I use " ++ lowerStr ft)),
      ("then", .str "the system completes successfully")]),
    normalize_gwt (.obj [("given", .str "invalid input"),
      ("when", .str ("I use " ++ lowerStr ft)),
      ("then", .str "a clear validation message is shown")]) ]

/-- The acceptanceCriteria computation of `_normalize_story`: accept a single
mapping or a sequence; `None` entries are dropped and every remaining entry
goes through `_normalize_gwt`; when nothing remains, the two default criteria
are synthesized. -/
def normalizeAC (fs : List (String × Json)) (fb : Option Feature) : List GivenWhenThen :=
  let ac := orJ (jget fs "acceptanceCriteria") (orJ (jget fs "acceptance_criteria")
    (orJ (jget fs "AC") (Json.arr [])))
  let items : List Json := match ac with
    | .obj ds => [.obj ds]
    | .arr xs => xs
    | _ => []
  let acNorm := (items.filter (fun x => !(Json.isNull x))).map normalize_gwt
  if acNorm.isEmpty then defaultAC fb
  else acNorm

/-- The Story-shaped mapping produced by `_normalize_story` (the caller
assigns `id` afterwards). -/
structure NormStory where
  featureId : String
  title : String
  description : StoryDescription
  acceptanceCriteria : List GivenWhenThen
  storyPoints : Int
deriving Repr, DecidableEq

/-- src/app.py `_normalize_story`: coerce an arbitrary JSON-like value into a
Story-shaped mapping using the fallback feature for defaults. Raises — as the
Python does with an AttributeError or TypeError — when the value is a truthy
non-mapping or when a truthy provided title or description field is not a
string. -/
def normalize_story (j : Json) (fb : Option Feature) : Except String NormStory := do
  let fs ← asDict j
  let featureId := normFeatureId fs fb
  let title ← normTitle fs fb
  let description ← normDesc fs fb
  let acceptanceCriteria := normalizeAC fs fb
  let storyPoints := to_fib (jget fs "storyPoints")
  .ok { featureId := featureId, title := title, description := description
        acceptanceCriteria := acceptanceCriteria, storyPoints := storyPoints }

theorem dropWhile_ne_nil_of_mem {α : Type} {p : α → Bool} {l : List α} {a : α}
    (ha : a ∈ l) (hp : p a = false) : l.dropWhile p ≠ [] := by
  intro h
  rw [List.dropWhile_eq_nil_iff] at h
  have := h a ha
  rw [this] at hp
  cases hp

theorem stripChars_cons_ne_nil {c : Char} {l : List Char}
    (hc : c.isWhitespace = false) : stripChars (c :: l) ≠ [] := by
  unfold stripChars
  rw [List.dropWhile_cons_of_neg (by simp [hc])]
  intro h
  rw [List.reverse_eq_nil_iff] at h
  exact dropWhile_ne_nil_of_mem (by simp) hc h

theorem pyStripStr_ne_of_head {s : String} {c : Char} {l : List Char}
    (hdata : s.data = c :: l) (hc : c.isWhitespace = false) : pyStripStr s ≠ "" := by
  unfold pyStripStr
  rw [hdata]
  intro h
  have h2 : stripChars (c :: l) = ([] : List Char) := congrArg String.data h
  exact stripChars_cons_ne_nil hc h2

theorem ite_empty_default_ne (x : String) : (if x = "" then "F" else x) ≠ "" := by
  split
  · decide
  · assumption

theorem normFeatureId_ne (fs : List (String × Json)) (fb : Option Feature) :
    normFeatureId fs fb ≠ "" := by
  unfold normFeatureId
  exact ite_empty_default_ne _

theorem normTitle_ne (fs : List (String × Json)) (fb : Option Feature) (t : String)
    (h : normTitle fs fb = .ok t) : t ≠ "" := by
  unfold normTitle at h
  cases horj : orJ (jget fs "title") (Json.str "") <;> rw [horj] at h <;>
    simp only at h <;> try exact absurd h (by simp)
  rename_i s
  by_cases he : pyStripStr s = ""
  · rw [if_pos he] at h
    injection h with h
    subst h
    refine pyStripStr_ne_of_head (c := 'I')
      (l := ("mplement " ++ (if fbTitle fb = "" then "feature" else fbTitle fb)).data) ?_ (by decide)
    show ("Implement " ++ _).data = _
    rw [String.data_append, String.data_append]
    rfl
  · rw [if_neg he] at h
    injection h with h
    subst h
    exact he

/-- C1 amended: whenever `_normalize_story` returns — it raises precisely when
the item is a truthy non-mapping or a truthy provided title or description
field is not a string, exceptions the orchestrator catches via whole-batch
fallback — its output passes the Story schema once the caller assigns an id:
featureId and title are non-empty strings, description and acceptance
criteria are string records by construction, and storyPoints is in
{1,2,3,5,8,13}. -/
theorem c1_normalize_story_validates (j : Json) (fb : Option Feature) (ns : NormStory)
    (h : normalize_story j fb = .ok ns) :
    ns.featureId ≠ "" ∧ ns.title ≠ "" ∧ ns.storyPoints ∈ _FIB_ALLOWED := by
  unfold normalize_story at h
  cases hd : asDict j with
  | error e => rw [hd] at h; simp [Bind.bind, Except.bind] at h
  | ok fs =>
    rw [hd] at h
    simp only [Bind.bind, Except.bind] at h
    cases ht : normTitle fs fb with
    | error e => rw [ht] at h; simp at h
    | ok t =>
      rw [ht] at h
      cases hde : normDesc fs fb with
      | error e => rw [hde] at h; simp at h
      | ok d =>
        rw [hde] at h
        injection h with h
        subst h
        exact ⟨normFeatureId_ne fs fb, normTitle_ne fs fb t ht, to_fib_mem _⟩

/-- A well-formed AI story item used to witness the amended C1. -/
def c1Input : Json := Json.obj [("title", Json.str "Upload avatars"), ("storyPoints", Json.int 8)]

/-- The normalized output of `c1Input` with no fallback feature. -/
def c1Output : NormStory :=
  { featureId := "F"
    title := "Upload avatars"
    description := { asA := "end-user", iWant := "use the feature", soThat := "I get value quickly" }
    acceptanceCriteria :=
      [ { given := "valid input", when_ := "I use the feature",
          then_ := "the system completes successfully" },
        { given := "invalid input", when_ := "I use the feature",
          then_ := "a clear validation message is shown" } ]
    storyPoints := 8 }

theorem c1_normalize_story_validates_witness :
    c1Output.featureId ≠ "" ∧ c1Output.title ≠ "" ∧ c1Output.storyPoints ∈ _FIB_ALLOWED :=
  c1_normalize_story_validates c1Input none c1Output (by rfl)

/-- C1 counterexample: on the JSON mapping `{"title": 5}` — a dict with an
arbitrarily-typed field, squarely inside the claim's domain — the normalizer
raises (`(5).strip()` is an AttributeError in `(s.get("title") or
"").strip()`) instead of producing a schema-valid mapping. -/
theorem c1_cex_nonstring_title_raises :
    normalize_story (Json.obj [("title", Json.int 5)]) none
      = Except.error "title is not a string" := by rfl

/-- A two-entry acceptanceCriteria sequence whose second entry is a plain
string, not a mapping. -/
def c7Input : Json :=
  Json.obj [("acceptanceCriteria", Json.arr
    [Json.obj [("given", Json.str "a"), ("when", Json.str "b"), ("then", Json.str "c")],
     Json.str "hello"])]

/-- C7 counterexample: on `c7Input` the normalized output keeps the
non-mapping entry "hello" as the empty given/when/then triple — two criteria
come out where the claim (one per mapping entry, non-mapping entries dropped)
predicts only the single triple ("a","b","c"). -/
theorem c7_cex_nonmapping_entry_kept :
    (normalize_story c7Input none).map (fun ns => ns.acceptanceCriteria)
      = Except.ok [{ given := "a", when_ := "b", then_ := "c" },
                   { given := "", when_ := "", then_ := "" }]
    ∧ ([{ given := "a", when_ := "b", then_ := "c" },
        { given := "", when_ := "", then_ := "" }] : List GivenWhenThen)
      ≠ [{ given := "a", when_ := "b", then_ := "c" }] := by
  exact ⟨by rfl, by decide⟩

/-- C7 amended: when the acceptanceCriteria input is a non-empty sequence,
only `None` entries are dropped; every other entry — mapping or not —
contributes exactly one normalized criterion (a non-mapping entry becomes the
empty triple via `_normalize_gwt`), and the two defaults are synthesized only
when nothing remains. -/
theorem c7_only_none_entries_dropped (fs : List (String × Json)) (fb : Option Feature)
    (xs : List Json) (hac : jget fs "acceptanceCriteria" = Json.arr xs) (hne : xs ≠ []) :
    normalizeAC fs fb
      = (if ((xs.filter (fun x => !(Json.isNull x))).map normalize_gwt).isEmpty
         then defaultAC fb
         else (xs.filter (fun x => !(Json.isNull x))).map normalize_gwt)
    ∧ ((xs.filter (fun x => !(Json.isNull x))) ≠ [] →
        (normalizeAC fs fb).length = (xs.filter (fun x => !(Json.isNull x))).length) := by
  have hmain : normalizeAC fs fb
      = (if ((xs.filter (fun x => !(Json.isNull x))).map normalize_gwt).isEmpty
         then defaultAC fb
         else (xs.filter (fun x => !(Json.isNull x))).map normalize_gwt) := by
    unfold normalizeAC
    rw [hac]
    have htr : truthy (Json.arr xs) = true := by
      simp [truthy, List.isEmpty_iff, hne]
    unfold orJ
    rw [htr]
    simp only [if_true]
  refine ⟨hmain, fun hfil => ?_⟩
  rw [hmain]
  rw [if_neg (by simp [List.isEmpty_iff, hfil])]
  exact List.length_map _ _

/-- Acceptance-criteria input fields witnessing the amended C7: one mapping
entry, one string entry, one `None` entry. -/
def c7WitnessFields : List (String × Json) :=
  [("acceptanceCriteria", Json.arr
    [Json.obj [("given", Json.str "a"), ("when", Json.str "b"), ("then", Json.str "c")],
     Json.str "hello", Json.null])]

theorem c7_only_none_entries_dropped_witness :
    normalizeAC c7WitnessFields none
      = [{ given := "a", when_ := "b", then_ := "c" },
         { given := "", when_ := "", then_ := "" }]
    ∧ (normalizeAC c7WitnessFields none).length = 2 := by
  have h := c7_only_none_entries_dropped c7WitnessFields none
    [Json.obj [("given", Json.str "a"), ("when", Json.str "b"), ("then", Json.str "c")],
     Json.str "hello", Json.null] (by rfl)
    (fun hc => absurd (congrArg List.length hc) (by decide))
  refine ⟨?_, ?_⟩
  · rw [h.1]; rfl
  · rw [h.2 (fun hc => absurd (congrArg List.length hc) (by decide))]; rfl

/-- `Optional[str]` rendered as a JSON-like value. -/
def optStrJ : Option String → Json
  | some s => .str s
  | none => .null

/-- Pydantic `model_dump` of a GivenWhenThen. -/
def dumpGwt (g : GivenWhenThen) : Json :=
  .obj [("given", .str g.given), ("when", .str g.when_), ("then", .str g.then_)]

/-- The field list of the pydantic `model_dump` of a Story — the mapping seen
by the normalizer when an already-valid Story record is re-normalized. -/
def dumpFields (s : Story) : List (String × Json) :=
  [("id", optStrJ s.id), ("featureId", optStrJ s.featureId), ("title", .str s.title),
   ("description", .obj [("asA", .str s.description.asA),
     ("iWant", .str s.description.iWant), ("soThat", .str s.description.soThat)]),
   ("acceptanceCriteria", .arr (s.acceptanceCriteria.map dumpGwt)),
   ("storyPoints", .int s.storyPoints)]

/-- Pydantic `model_dump` of a Story. -/
def dumpStory (s : Story) : Json := .obj (dumpFields s)

/-- An already-valid Story record (pydantic accepts an empty
acceptanceCriteria list) on which normalization is not the identity. -/
def c6Story : Story :=
  { id := some "S-001", featureId := some "F1", title := "Checkout"
    description := { asA := "end-user", iWant := "to pay", soThat := "I save time" }
    acceptanceCriteria := []
    storyPoints := 3 }

/-- C6 counterexample: `c6Story` passes Story schema validation, yet
normalizing its dump synthesizes two default acceptance criteria where the
record has none, so the output differs from the input record. -/
theorem c6_cex_not_idempotent :
    storyPointsOk c6Story = true
    ∧ c6Story.acceptanceCriteria.length = 0
    ∧ (normalize_story (dumpStory c6Story) none).map
        (fun ns => ns.acceptanceCriteria.length) = Except.ok 2 := by
  exact ⟨by rfl, by rfl, by rfl⟩

theorem truthy_str_ne {s : String} (h : s ≠ "") : truthy (Json.str s) = true := by
  simp [truthy, h]

theorem orJ_of_truthy {a b : Json} (h : truthy a = true) : orJ a b = a := by
  unfold orJ
  rw [h]
  simp

theorem strip_orJ_str_empty (s : String) (hs : pyStripStr s = s) :
    pyStripStr (pyStr (orJ (Json.str s) (Json.str ""))) = s := by
  by_cases h : s = ""
  · subst h; rfl
  · rw [orJ_of_truthy (truthy_str_ne h)]
    exact hs

theorem orJ_null (b : Json) : orJ Json.null b = b := rfl

theorem normalize_gwt_dump (g : GivenWhenThen)
    (hg : pyStripStr g.given = g.given) (hw : pyStripStr g.when_ = g.when_)
    (ht : pyStripStr g.then_ = g.then_) :
    normalize_gwt (dumpGwt g) = g := by
  obtain ⟨gg, gw, gt⟩ := g
  simp only at hg hw ht
  unfold normalize_gwt dumpGwt
  simp [jget, orJ_null]
  exact ⟨strip_orJ_str_empty _ hg, strip_orJ_str_empty _ hw, strip_orJ_str_empty _ ht⟩

theorem jget_dump_featureId (r : Story) :
    jget (dumpFields r) "featureId" = optStrJ r.featureId := by
  simp [jget, dumpFields]

theorem jget_dump_title (r : Story) : jget (dumpFields r) "title" = Json.str r.title := by
  simp [jget, dumpFields]

theorem jget_dump_description (r : Story) :
    jget (dumpFields r) "description"
      = Json.obj [("asA", Json.str r.description.asA), ("iWant", Json.str r.description.iWant),
          ("soThat", Json.str r.description.soThat)] := by
  simp [jget, dumpFields]

theorem jget_dump_ac (r : Story) :
    jget (dumpFields r) "acceptanceCriteria" = Json.arr (r.acceptanceCriteria.map dumpGwt) := by
  simp [jget, dumpFields]

theorem jget_dump_storyPoints (r : Story) :
    jget (dumpFields r) "storyPoints" = Json.int r.storyPoints := by
  simp [jget, dumpFields]

theorem normFeatureId_dump (r : Story) (fb : Option Feature) (fid : String)
    (hf : r.featureId = some fid) (hs : pyStripStr fid = fid) (hne : fid ≠ "") :
    normFeatureId (dumpFields r) fb = fid := by
  unfold normFeatureId
  rw [jget_dump_featureId, hf]
  show (if pyStripStr (pyStr (orJ (Json.str fid) _)) = "" then "F"
        else pyStripStr (pyStr (orJ (Json.str fid) _))) = fid
  rw [orJ_of_truthy (truthy_str_ne hne)]
  show (if pyStripStr fid = "" then "F" else pyStripStr fid) = fid
  rw [hs, if_neg hne]

theorem normTitle_dump (r : Story) (fb : Option Feature)
    (hs : pyStripStr r.title = r.title) (hne : r.title ≠ "") :
    normTitle (dumpFields r) fb = .ok r.title := by
  unfold normTitle
  rw [jget_dump_title, orJ_of_truthy (truthy_str_ne hne)]
  show (if pyStripStr r.title = "" then _ else Except.ok (pyStripStr r.title)) = .ok r.title
  rw [hs, if_neg hne]

theorem stripJ_orJ_str (s : String) (rest : Json) (hne : s ≠ "") :
    stripJ (orJ (Json.str s) rest) = .ok (pyStripStr s) := by
  rw [orJ_of_truthy (truthy_str_ne hne)]
  rfl

theorem normDesc_dump (r : Story) (fb : Option Feature)
    (h1 : pyStripStr r.description.asA = r.description.asA) (h2 : r.description.asA ≠ "")
    (h3 : pyStripStr r.description.iWant = r.description.iWant) (h4 : r.description.iWant ≠ "")
    (h5 : pyStripStr r.description.soThat = r.description.soThat) (h6 : r.description.soThat ≠ "") :
    normDesc (dumpFields r) fb = .ok r.description := by
  unfold normDesc
  rw [jget_dump_description]
  show (do
    let asA ← stripJ (orJ (jget _ "asA") (orJ (jget _ "role") (Json.str "end-user")))
    let iWant ← stripJ (orJ (jget _ "iWant") (orJ (jget _ "goal")
      (orJ (Json.str (fbTitle fb)) (Json.str "use the feature"))))
    let soThat ← stripJ (orJ (jget _ "soThat") (orJ (jget _ "why")
      (Json.str "I get value quickly")))
    Except.ok { asA := asA, iWant := iWant, soThat := soThat }) = Except.ok r.description
  have ja : jget [("asA", Json.str r.description.asA), ("iWant", Json.str r.description.iWant),
      ("soThat", Json.str r.description.soThat)] "asA" = Json.str r.description.asA := by
    simp [jget]
  have ji : jget [("asA", Json.str r.description.asA), ("iWant", Json.str r.description.iWant),
      ("soThat", Json.str r.description.soThat)] "iWant" = Json.str r.description.iWant := by
    simp [jget]
  have js : jget [("asA", Json.str r.description.asA), ("iWant", Json.str r.description.iWant),
      ("soThat", Json.str r.description.soThat)] "soThat" = Json.str r.description.soThat := by
    simp [jget]
  rw [ja, ji, js]
  simp only [Bind.bind, Except.bind, stripJ_orJ_str _ _ h2, stripJ_orJ_str _ _ h4,
    stripJ_orJ_str _ _ h6, h1, h3, h5]

theorem normalizeAC_dump (r : Story) (fb : Option Feature)
    (hne : r.acceptanceCriteria ≠ [])
    (hfields : ∀ g ∈ r.acceptanceCriteria,
      pyStripStr g.given = g.given ∧ pyStripStr g.when_ = g.when_
        ∧ pyStripStr g.then_ = g.then_) :
    normalizeAC (dumpFields r) fb = r.acceptanceCriteria := by
  unfold normalizeAC
  rw [jget_dump_ac]
  have htr : truthy (Json.arr (r.acceptanceCriteria.map dumpGwt)) = true := by
    simp [truthy, List.isEmpty_iff, hne]
  rw [orJ_of_truthy htr]
  show (let acNorm := ((r.acceptanceCriteria.map dumpGwt).filter
          (fun x => !(Json.isNull x))).map normalize_gwt
        if acNorm.isEmpty then defaultAC fb else acNorm) = r.acceptanceCriteria
  have hfilter : (r.acceptanceCriteria.map dumpGwt).filter (fun x => !(Json.isNull x))
      = r.acceptanceCriteria.map dumpGwt := by
    refine List.filter_eq_self.mpr (fun a hmem => ?_)
    obtain ⟨g, _, rfl⟩ := List.mem_map.mp hmem
    rfl
  rw [hfilter, List.map_map]
  have hmap : r.acceptanceCriteria.map (normalize_gwt ∘ dumpGwt) = r.acceptanceCriteria := by
    have hcongr : r.acceptanceCriteria.map (normalize_gwt ∘ dumpGwt)
        = r.acceptanceCriteria.map id := by
      refine List.map_congr_left (fun g hg => ?_)
      obtain ⟨hgg, hgw, hgt⟩ := hfields g hg
      exact normalize_gwt_dump g hgg hgw hgt
    rw [hcongr, List.map_id]
  rw [hmap]
  rw [if_neg (by simp [List.isEmpty_iff, hne])]

theorem to_fib_int_fix (p : Int) (hp : p ∈ _FIB_ALLOWED) : to_fib (Json.int p) = p :=
  minFib_fix p hp

/-- C6 amended: the Story normalizer is the identity (modulo re-packaging the
caller-assigned id) exactly on valid records in normal form — featureId
present, trimmed and non-empty; title trimmed and non-empty; the three
description fields trimmed and non-empty; a non-empty acceptanceCriteria list
with trimmed fields; storyPoints in the allowed set. On other valid records
(empty acceptance criteria, untrimmed or empty fields) normalization changes
the record. -/
theorem c6_normalizer_identity_on_normal_records (r : Story) (fb : Option Feature)
    (fid : String)
    (hfid : r.featureId = some fid) (hfid1 : pyStripStr fid = fid) (hfid2 : fid ≠ "")
    (ht1 : pyStripStr r.title = r.title) (ht2 : r.title ≠ "")
    (hd1 : pyStripStr r.description.asA = r.description.asA) (hd2 : r.description.asA ≠ "")
    (hd3 : pyStripStr r.description.iWant = r.description.iWant)
    (hd4 : r.description.iWant ≠ "")
    (hd5 : pyStripStr r.description.soThat = r.description.soThat)
    (hd6 : r.description.soThat ≠ "")
    (hac : r.acceptanceCriteria ≠ [])
    (hacf : ∀ g ∈ r.acceptanceCriteria, pyStripStr g.given = g.given
      ∧ pyStripStr g.when_ = g.when_ ∧ pyStripStr g.then_ = g.then_)
    (hsp : r.storyPoints ∈ _FIB_ALLOWED) :
    normalize_story (dumpStory r) fb
      = .ok { featureId := fid, title := r.title, description := r.description
              acceptanceCriteria := r.acceptanceCriteria
              storyPoints := r.storyPoints } := by
  unfold normalize_story
  rw [show asDict (dumpStory r) = .ok (dumpFields r) from rfl]
  simp only [Bind.bind, Except.bind]
  rw [normTitle_dump r fb ht1 ht2]
  rw [normDesc_dump r fb hd1 hd2 hd3 hd4 hd5 hd6]
  rw [normFeatureId_dump r fb fid hfid hfid1 hfid2]
  rw [normalizeAC_dump r fb hac hacf]
  rw [jget_dump_storyPoints, to_fib_int_fix r.storyPoints hsp]

/-- A valid Story record in normal form, witnessing the amended C6. -/
def c6NormalStory : Story :=
  { id := some "S-007", featureId := some "F1", title := "Pay invoices"
    description := { asA := "end-user", iWant := "to pay invoices", soThat := "I save time" }
    acceptanceCriteria :=
      [ { given := "an open invoice", when_ := "I pay it", then_ := "it is marked paid" } ]
    storyPoints := 5 }

theorem c6_normalizer_identity_on_normal_records_witness :
    normalize_story (dumpStory c6NormalStory) none
      = .ok { featureId := "F1", title := c6NormalStory.title
              description := c6NormalStory.description
              acceptanceCriteria := c6NormalStory.acceptanceCriteria
              storyPoints := c6NormalStory.storyPoints } :=
  c6_normalizer_identity_on_normal_records c6NormalStory none "F1"
    rfl (by decide) (by decide) (by decide) (by decide) (by decide) (by decide)
    (by decide) (by decide) (by decide) (by decide)
    (List.cons_ne_nil _ _) (by decide) (by decide)

theorem dropWhile_dropWhile (p : Char → Bool) (l : List Char) :
    (l.dropWhile p).dropWhile p = l.dropWhile p := by
  induction l with
  | nil => rfl
  | cons a t ih =>
    rw [List.dropWhile_cons]
    by_cases hp : p a = true
    · rw [if_pos hp]; exact ih
    · rw [if_neg hp]
      exact List.dropWhile_cons_of_neg hp

theorem dropWhile_head_false {p : Char → Bool} {l : List Char} {c : Char} {t : List Char}
    (h : l.dropWhile p = c :: t) : p c = false := by
  induction l with
  | nil => cases h
  | cons a l ih =>
    rw [List.dropWhile_cons] at h
    by_cases hp : p a = true
    · rw [if_pos hp] at h; exact ih h
    · rw [if_neg hp] at h
      injection h with h1 _
      subst h1
      simpa using hp

/-- The right half of `stripChars`: drop trailing whitespace. -/
def stripRight (l : List Char) : List Char :=
  (l.reverse.dropWhile Char.isWhitespace).reverse

theorem stripChars_eq (l : List Char) :
    stripChars l = stripRight (l.dropWhile Char.isWhitespace) := rfl

theorem stripRight_prefix (l : List Char) : stripRight l <+: l := by
  unfold stripRight
  conv_rhs => rw [← List.reverse_reverse l]
  exact List.reverse_prefix.mpr (List.dropWhile_suffix _)

theorem stripRight_idem (l : List Char) : stripRight (stripRight l) = stripRight l := by
  unfold stripRight
  rw [List.reverse_reverse, dropWhile_dropWhile]

theorem dropWhile_stripChars (l : List Char) :
    (stripChars l).dropWhile Char.isWhitespace = stripChars l := by
  rw [stripChars_eq]
  cases hm : l.dropWhile Char.isWhitespace with
  | nil => rfl
  | cons c t =>
    have hc : Char.isWhitespace c = false := dropWhile_head_false hm
    cases hsr : stripRight (c :: t) with
    | nil => rfl
    | cons d u =>
      have hpre : stripRight (c :: t) <+: c :: t := stripRight_prefix _
      rw [hsr] at hpre
      obtain ⟨v, hv⟩ := hpre
      have hd : d = c := by
        have := congrArg List.head? hv
        simpa using this
      subst hd
      exact List.dropWhile_cons_of_neg (by simp [hc])

theorem stripChars_idem (l : List Char) : stripChars (stripChars l) = stripChars l := by
  rw [stripChars_eq (stripChars l), dropWhile_stripChars, stripChars_eq l, stripRight_idem]

theorem pyStripStr_idem (s : String) : pyStripStr (pyStripStr s) = pyStripStr s := by
  unfold pyStripStr
  rw [show (String.mk (stripChars s.data)).data = stripChars s.data from rfl, stripChars_idem]

/-- src/app.py `_normalize_testcase` (the second definition in the file, the
one in effect at runtime): coerce a mapping into the exact TestCase shape.
Total — every field is stringified, trimmed and defaulted; extra input keys
are dropped at pydantic validation. -/
def normalize_testcase (fs : List (String × Json)) (sidFb : Option String) : TestCase :=
  let steps0 : List Json := match jget fs "steps" with
    | .str s => [Json.str s]
    | .arr xs => xs
    | _ => []
  let steps := (steps0.filter
      (fun s => !(Json.isNull s) && (pyStripStr (pyStr s) != ""))).map
      (fun s => pyStripStr (pyStr s))
  let exp : String := match jget fs "expected" with
    | .arr xs => String.intercalate " "
        ((xs.filter (fun x => !(Json.isNull x) && (pyStripStr (pyStr x) != ""))).map
          (fun x => pyStripStr (pyStr x)))
    | .null => ""
    | j => pyStr j
  let expected := pyStripStr exp
  let prec : String := match jget fs "preconditions" with
    | .null => ""
    | j => pyStr j
  let preconditions := pyStripStr prec
  let sidJ := orJ (jget fs "storyId") (orJ (optStrJ sidFb) (Json.str "S"))
  let storyId := if pyStripStr (pyStr sidJ) = "" then "S" else pyStripStr (pyStr sidJ)
  let id := match jget fs "id" with
    | .str s =>
        if pyStripStr s = "" then "TC-" ++ storyId ++ "-" ++ toString (max 1 steps.length)
        else s
    | _ => "TC-" ++ storyId ++ "-" ++ toString (max 1 steps.length)
  { id := id, storyId := storyId, preconditions := preconditions
    steps := steps, expected := expected }

theorem normalize_testcase_steps (fs : List (String × Json)) (sidFb : Option String) :
    (normalize_testcase fs sidFb).steps
      = ((match jget fs "steps" with
          | .str s => [Json.str s]
          | .arr xs => xs
          | _ => []).filter
          (fun s => !(Json.isNull s) && (pyStripStr (pyStr s) != ""))).map
          (fun s => pyStripStr (pyStr s)) := rfl

theorem normalize_testcase_expected (fs : List (String × Json)) (sidFb : Option String) :
    (normalize_testcase fs sidFb).expected
      = pyStripStr (match jget fs "expected" with
          | .arr xs => String.intercalate " "
              ((xs.filter (fun x => !(Json.isNull x) && (pyStripStr (pyStr x) != ""))).map
                (fun x => pyStripStr (pyStr x)))
          | .null => ""
          | j => pyStr j) := rfl

theorem normalize_testcase_preconditions (fs : List (String × Json)) (sidFb : Option String) :
    (normalize_testcase fs sidFb).preconditions
      = pyStripStr (match jget fs "preconditions" with
          | .null => ""
          | j => pyStr j) := rfl

/-- C4: the TestCase normalizer always yields `steps` as a sequence of
non-empty trimmed strings (a single string input is wrapped into a
one-element list, null or any non-list becomes the empty list, entries empty
after trimming are discarded), `expected` as a trimmed (never-list) string and
`preconditions` as a trimmed string; on the concrete scenario
steps="click button", expected=["ok","done"], preconditions=None it yields
steps=["click button"], expected="ok done", preconditions="". -/
theorem c4_testcase_normalizer :
    (∀ (fs : List (String × Json)) (sidFb : Option String),
      ∀ s ∈ (normalize_testcase fs sidFb).steps, s ≠ "" ∧ pyStripStr s = s)
    ∧ (∀ (fs : List (String × Json)) (sidFb : Option String),
        pyStripStr (normalize_testcase fs sidFb).expected
          = (normalize_testcase fs sidFb).expected)
    ∧ (∀ (fs : List (String × Json)) (sidFb : Option String),
        pyStripStr (normalize_testcase fs sidFb).preconditions
          = (normalize_testcase fs sidFb).preconditions)
    ∧ (∀ (fs : List (String × Json)) (sidFb : Option String),
        jget fs "steps" = Json.null → (normalize_testcase fs sidFb).steps = [])
    ∧ (normalize_testcase [("steps", Json.str "click button"),
         ("expected", Json.arr [Json.str "ok", Json.str "done"]),
         ("preconditions", Json.null)] (some "S-001")).steps = ["click button"]
    ∧ (normalize_testcase [("steps", Json.str "click button"),
         ("expected", Json.arr [Json.str "ok", Json.str "done"]),
         ("preconditions", Json.null)] (some "S-001")).expected = "ok done"
    ∧ (normalize_testcase [("steps", Json.str "click button"),
         ("expected", Json.arr [Json.str "ok", Json.str "done"]),
         ("preconditions", Json.null)] (some "S-001")).preconditions = "" := by
  refine ⟨?_, ?_, ?_, ?_, by rfl, by rfl, by rfl⟩
  · intro fs sidFb s hs
    rw [normalize_testcase_steps] at hs
    obtain ⟨x, hxmem, rfl⟩ := List.mem_map.mp hs
    have hcond := (List.mem_filter.mp hxmem).2
    have hne : pyStripStr (pyStr x) ≠ "" := by
      intro he
      rw [he] at hcond
      simp at hcond
    exact ⟨hne, pyStripStr_idem _⟩
  · intro fs sidFb
    rw [normalize_testcase_expected]
    exact pyStripStr_idem _
  · intro fs sidFb
    rw [normalize_testcase_preconditions]
    exact pyStripStr_idem _
  · intro fs sidFb h
    rw [normalize_testcase_steps, h]
    rfl

theorem c4_testcase_normalizer_witness :
    ("click button" ≠ "" ∧ pyStripStr "click button" = "click button")
    ∧ pyStripStr (normalize_testcase [("expected", Json.arr [Json.str "ok", Json.str "done"])]
        none).expected
      = (normalize_testcase [("expected", Json.arr [Json.str "ok", Json.str "done"])]
        none).expected
    ∧ (normalize_testcase [("steps", Json.null)] none).steps = [] :=
  ⟨c4_testcase_normalizer.1 [("steps", Json.str "click button"),
      ("expected", Json.arr [Json.str "ok", Json.str "done"]),
      ("preconditions", Json.null)] (some "S-001") "click button" (by decide),
   c4_testcase_normalizer.2.1 [("expected", Json.arr [Json.str "ok", Json.str "done"])] none,
   c4_testcase_normalizer.2.2.2.1 [("steps", Json.null)] none (by rfl)⟩

/-- The process-wide diagnostics `LAST_AI_ENGINE` / `LAST_AI_ERROR` of
src/app.py, passed explicitly. -/
structure GenState where
  engine : String
  error : Option String
deriving Repr, DecidableEq

/-- `generate_stories`/`generate_tests` wrapping of a parsed LLM response: a
bare object becomes a one-element list, a non-list non-object becomes the
empty list. -/
def wrapItems : Json → List Json
  | .obj fs => [.obj fs]
  | .arr xs => xs
  | _ => []

/-- One AI story item inside `generate_stories`: normalize, then read or
synthesize the id (`s.get("id") or f"S-{idx:03d}"`; pydantic rejects a truthy
non-string id), re-fill featureId if empty (dead code: the normalizer already
guarantees it non-empty), and validate the Story. A non-mapping item raises —
the falsy ones at `s.get("id")`, the truthy ones at `dict(s)`. -/
def processItem (j : Json) (idx : Nat) (fb : Option Feature) : Except String Story :=
  match j with
  | .obj fs => do
      let ns ← normalize_story (.obj fs) fb
      let idv ← match orJ (jget fs "id") (Json.str ("S-" ++ pad3 idx)) with
        | .str s => Except.ok s
        | _ => Except.error "id is not a string"
      let fid := if ns.featureId = "" then
          (match fb with
           | some f => orStr (some f.id) (orStr f.key (orStr (some f.title) "F"))
           | none => "F")
        else ns.featureId
      if _FIB_ALLOWED.contains ns.storyPoints then
        Except.ok { id := some idv, featureId := some fid, title := ns.title
                    description := ns.description
                    acceptanceCriteria := ns.acceptanceCriteria
                    storyPoints := ns.storyPoints }
      else Except.error "storyPoints not in the allowed set"
  | _ => Except.error "story item is not a mapping"

/-- The AI path of `generate_stories`: the `_gemini_json` outcome (error =
any exception while calling or JSON-parsing), wrapped and processed item by
item with 1-based indices and `features[0]` as the fallback feature; the
first exception aborts the whole batch. -/
def aiStories (llm : Except String Json) (features : List Feature) :
    Except String (List Story) := do
  let raw ← llm
  (wrapItems raw).enum.mapM (fun p => processItem p.2 (p.1 + 1) features.head?)

/-- src/app.py `generate_stories` as a function of the LLM availability flag,
the `_gemini_json` call outcome, the request features and the previous
diagnostic state: returns the new diagnostics and the produced stories. -/
def generate_stories (llmConfigured : Bool) (llm : Except String Json)
    (features : List Feature) (st : GenState) : GenState × List Story :=
  if !llmConfigured then
    ({ engine := "fallback", error := st.error }, features_to_baseline_stories features)
  else
    match aiStories llm features with
    | .ok ss => ({ engine := "gemini", error := none }, ss)
    | .error e =>
        ({ engine := "fallback", error := some e }, features_to_baseline_stories features)

/-- One AI test item inside `generate_tests`: a truthy non-mapping raises at
`dict(t)`; everything else normalizes totally and always validates. -/
def processTest (j : Json) (sidFb : Option String) : Except String TestCase :=
  match j with
  | .obj fs => Except.ok (normalize_testcase fs sidFb)
  | j => if truthy j then Except.error "test item is not a mapping"
         else Except.ok (normalize_testcase [] sidFb)

/-- The AI path of `generate_tests`: wrap the response and normalize each
item, with `stories[0].id` (or "S" when there are no stories) as the storyId
fallback. -/
def aiTests (llm : Except String Json) (stories : List Story) :
    Except String (List TestCase) := do
  let raw ← llm
  (wrapItems raw).mapM (fun j => processTest j
    (match stories.head? with
     | some s => s.id
     | none => some "S"))

/-- src/app.py `generate_tests`, modelled like `generate_stories`. On AI
success the engine is set to "gemini" but — unlike story generation — the
last-error value is left untouched. -/
def generate_tests (llmConfigured : Bool) (llm : Except String Json)
    (stories : List Story) (st : GenState) : GenState × List TestCase :=
  if !llmConfigured then
    ({ engine := "fallback", error := st.error }, stories_to_baseline_tests stories)
  else
    match aiTests llm stories with
    | .ok ts => ({ engine := "gemini", error := st.error }, ts)
    | .error e =>
        ({ engine := "fallback", error := some e }, stories_to_baseline_tests stories)

/-- C3: if the LLM call, the JSON parsing of its response, or the
normalization-plus-validation of any single item fails during story
generation (`aiStories` returns an error), the whole batch falls back — the
engine diagnostic is "fallback", the returned stories are exactly the
baseline generator's output (no partial AI stories), and the count equals
the baseline count. -/
theorem c3_whole_batch_fallback (llm : Except String Json) (features : List Feature)
    (st : GenState) (e : String) (h : aiStories llm features = .error e) :
    (generate_stories true llm features st).1.engine = "fallback"
    ∧ (generate_stories true llm features st).2 = features_to_baseline_stories features
    ∧ (generate_stories true llm features st).2.length
        = (features_to_baseline_stories features).length := by
  unfold generate_stories
  rw [h]
  exact ⟨rfl, rfl, rfl⟩

theorem c3_whole_batch_fallback_witness :
    (generate_stories true (Except.error "boom") [loginFeature]
        { engine := "unknown", error := none }).1.engine = "fallback"
    ∧ (generate_stories true (Except.error "boom") [loginFeature]
        { engine := "unknown", error := none }).2
      = features_to_baseline_stories [loginFeature] :=
  ⟨(c3_whole_batch_fallback (Except.error "boom") [loginFeature]
      { engine := "unknown", error := none } "boom" (by rfl)).1,
   (c3_whole_batch_fallback (Except.error "boom") [loginFeature]
      { engine := "unknown", error := none } "boom" (by rfl)).2.1⟩

/-- C5 amended: after every story- or test-generation call, the recorded
engine label is exactly one of "gemini" (the literal the code records on AI
success — not "ai") or "fallback". -/
theorem c5_engine_two_values (llmConfigured : Bool) (llm : Except String Json)
    (features : List Feature) (stories : List Story) (st : GenState) :
    ((generate_stories llmConfigured llm features st).1.engine = "gemini"
      ∨ (generate_stories llmConfigured llm features st).1.engine = "fallback")
    ∧ ((generate_tests llmConfigured llm stories st).1.engine = "gemini"
      ∨ (generate_tests llmConfigured llm stories st).1.engine = "fallback") := by
  constructor
  · unfold generate_stories
    cases llmConfigured
    · right; rfl
    · cases aiStories llm features
      · right; rfl
      · left; rfl
  · unfold generate_tests
    cases llmConfigured
    · right; rfl
    · cases aiTests llm stories
      · right; rfl
      · left; rfl

/-- C5 counterexample: a successful AI story-generation call records the
engine value "gemini", which is neither of the two values — "ai" and
"fallback" — the claim allows. -/
theorem c5_cex_engine_is_gemini :
    (generate_stories true (Except.ok (Json.arr [])) []
        { engine := "unknown", error := none }).1.engine = "gemini"
    ∧ "gemini" ≠ "ai" ∧ "gemini" ≠ "fallback" :=
  ⟨by rfl, by decide, by decide⟩

/-- C9 amended: the engine label is overwritten on every generation call —
its new value never depends on the previous diagnostics — but the last-error
value is not: story generation clears it on AI success and sets it on AI
failure, test generation sets it on AI failure but keeps the previous value
on AI success, and both keep the previous value on the no-client fallback
path. -/
theorem c9_diagnostics_overwrite (llmConfigured : Bool) (llm : Except String Json)
    (features : List Feature) (stories : List Story) (st st2 : GenState) :
    ((generate_stories llmConfigured llm features st).1.engine
       = (generate_stories llmConfigured llm features st2).1.engine)
    ∧ ((generate_tests llmConfigured llm stories st).1.engine
       = (generate_tests llmConfigured llm stories st2).1.engine)
    ∧ ((generate_stories llmConfigured llm features st).1.error
       = if llmConfigured then
           (match aiStories llm features with
            | .ok _ => none
            | .error e => some e)
         else st.error)
    ∧ ((generate_tests llmConfigured llm stories st).1.error
       = if llmConfigured then
           (match aiTests llm stories with
            | .ok _ => st.error
            | .error e => some e)
         else st.error) := by
  unfold generate_stories generate_tests
  cases llmConfigured
  · exact ⟨rfl, rfl, rfl, rfl⟩
  · refine ⟨?_, ?_, ?_, ?_⟩
    · cases aiStories llm features <;> rfl
    · cases aiTests llm stories <;> rfl
    · cases aiStories llm features <;> rfl
    · cases aiTests llm stories <;> rfl

/-- C9 counterexample: a test-generation call that succeeds on the AI path
leaves the previous call's last-error in place, so after the call the error
diagnostic still reflects an earlier call — not this one. -/
theorem c9_cex_stale_error_after_success :
    (generate_tests true (Except.ok (Json.arr [])) []
        { engine := "unknown", error := some "previous failure" }).1.error
      = some "previous failure" := by rfl
